import Mathlib

/-!
Verification of the timing-calculation and register-sequencing core of the
Xilinx AXI-timer PWM driver (drivers/pwm/pwm-xlnx.c).

The driver programs a two-counter timer peripheral.  We embed:
  * the register offsets and control-bit constants,
  * the cycle conversion `clkrate * ns / 10^9` performed in 64-bit
    unsigned arithmetic (`do_div` on an `unsigned long long`),
  * the pure "planner" part of `xlnx_pwm_config` that computes the two
    cycle counts and the two TCSR flag words,
  * the stateful register/clock sequences of `xlnx_pwm_config`,
    `xlnx_pwm_enable` and `xlnx_pwm_disable`, as explicit state passing
    over a register bank (an offset-indexed map of 32-bit values), a
    clock reference count, and an event trace recording every register
    access and clock request in program order.
-/

namespace XlnxPwm

/-- Register offsets, as in the driver. -/
def TCSR0 : Nat := 0x00
def TLR0 : Nat := 0x04
def TCR0 : Nat := 0x08
def TCSR1 : Nat := 0x10
def TLR1 : Nat := 0x14
def TCR1 : Nat := 0x18

/-- TCSR bit masks, as in the driver. -/
def TCSR_MDT : Nat := 1 <<< 0
def TCSR_UDT : Nat := 1 <<< 1
def TCSR_GENT : Nat := 1 <<< 2
def TCSR_CAPT : Nat := 1 <<< 3
def TCSR_ARHT : Nat := 1 <<< 4
def TCSR_LOAD : Nat := 1 <<< 5
def TCSR_ENIT : Nat := 1 <<< 6
def TCSR_ENT : Nat := 1 <<< 7
def TCSR_TINT : Nat := 1 <<< 8
def TCSR_PWMA : Nat := 1 <<< 9
def TCSR_ENALL : Nat := 1 <<< 10

/-- 2^32, the register width modulus: `writel` stores the low 32 bits. -/
def U32 : Nat := 2 ^ 32

/-- 2^64, the modulus of the C `unsigned long long` multiply. -/
def U64 : Nat := 2 ^ 64

/-- The cycle conversion of `xlnx_pwm_config`:
`c = clkrate * ns; do_div(c, 1000000000)`, with the multiply performed in
64-bit unsigned arithmetic (it wraps modulo 2^64) and `do_div` a
truncating division. -/
def cyclesOf (clkrate ns : Nat) : Nat :=
  (clkrate * ns % U64) / 1000000000

/-- The baseline flag word both counters start from in `xlnx_pwm_config`
and `xlnx_pwm_enable`: `TCSR_UDT | TCSR_GENT | TCSR_ARHT | TCSR_PWMA`. -/
def baseFlags : Nat := TCSR_UDT ||| TCSR_GENT ||| TCSR_ARHT ||| TCSR_PWMA

/-- `x &= ~TCSR_GENT` on a 64-bit unsigned word. -/
def clearGent (x : Nat) : Nat := x &&& ((U64 - 1) ^^^ TCSR_GENT)

/-- The program computed by the planning part of `xlnx_pwm_config`:
two cycle counts and the two TCSR flag words (`tcsr0` for the counter at
0x00/0x04, `tcsr1` for the counter at 0x10/0x14). -/
structure TimerProgram where
  period_cycles : Nat
  duty_cycles : Nat
  tcsr0 : Nat
  tcsr1 : Nat
  deriving Repr, DecidableEq

/-- The pure planning part of `xlnx_pwm_config` (lines 58-74): compute
`period_cycles` and `duty_cycles`, start both flag words at the baseline,
then clear GENT on tcsr0 when `duty_cycles == 0` (always OFF), else clear
GENT on tcsr1 when `duty_cycles == period_cycles` (always ON). -/
def plan (clkrate duty_ns period_ns : Nat) : TimerProgram :=
  let period_cycles := cyclesOf clkrate period_ns
  let duty_cycles := cyclesOf clkrate duty_ns
  if duty_cycles = 0 then
    { period_cycles := period_cycles, duty_cycles := duty_cycles,
      tcsr0 := clearGent baseFlags, tcsr1 := baseFlags }
  else if duty_cycles = period_cycles then
    { period_cycles := period_cycles, duty_cycles := duty_cycles,
      tcsr0 := baseFlags, tcsr1 := clearGent baseFlags }
  else
    { period_cycles := period_cycles, duty_cycles := duty_cycles,
      tcsr0 := baseFlags, tcsr1 := baseFlags }

/-- One observable event of the driver: a register write (value as passed
to `writel`), a register read, or a clock enable/disable request. -/
inductive Ev where
  | write (off : Nat) (v : Nat)
  | read (off : Nat)
  | clkEnable
  | clkDisable
  deriving Repr, DecidableEq

/-- Driver-visible state: the register bank (offset-indexed, each cell
holding the low 32 bits of the last write), the clock reference count,
and the trace of events so far, oldest first. -/
structure PwmState where
  regs : Nat → Nat
  clkRef : Int
  trace : List Ev

/-- `writel`: store the low 32 bits at the offset, record the event. -/
def wr (s : PwmState) (off v : Nat) : PwmState :=
  { s with
    regs := fun o => if o = off then v % U32 else s.regs o,
    trace := s.trace ++ [Ev.write off v] }

/-- `readl`: return the register value, record the event. -/
def rd (s : PwmState) (off : Nat) : Nat × PwmState :=
  (s.regs off, { s with trace := s.trace ++ [Ev.read off] })

/-- `clk_prepare_enable`: take one clock reference, record the event. -/
def clkEn (s : PwmState) : PwmState :=
  { s with clkRef := s.clkRef + 1, trace := s.trace ++ [Ev.clkEnable] }

/-- `clk_disable_unprepare`: drop one clock reference, record the event. -/
def clkDis (s : PwmState) : PwmState :=
  { s with clkRef := s.clkRef - 1, trace := s.trace ++ [Ev.clkDisable] }

/-- The register/clock sequence of `xlnx_pwm_config` (lines 80-97),
applying a planned program: enable the clock, stop both counters, write
the presets (period to TLR0, duty to TLR1), pulse LOAD on both, write
the flag words, start via `tcsr1 | TCSR_ENALL` on TCSR1, and release
the clock. -/
def applyProgram (p : TimerProgram) (s : PwmState) : PwmState :=
  let s := clkEn s
  let s := wr s TCSR0 0
  let s := wr s TCSR1 0
  let s := wr s TLR0 p.period_cycles
  let s := wr s TLR1 p.duty_cycles
  let s := wr s TCSR0 TCSR_LOAD
  let s := wr s TCSR1 TCSR_LOAD
  let s := wr s TCSR0 p.tcsr0
  let s := wr s TCSR1 p.tcsr1
  let s := wr s TCSR1 (p.tcsr1 ||| TCSR_ENALL)
  clkDis s

/-- `xlnx_pwm_config` (lines 51-99): plan the program from the current
clock rate and the two times, apply it, and return 0 unconditionally
(the function has no validation and no error path). -/
def xlnx_pwm_config (clkrate : Nat) (duty_ns period_ns : Nat)
    (s : PwmState) : PwmState × Int :=
  (applyProgram (plan clkrate duty_ns period_ns) s, 0)

/-- `xlnx_pwm_enable` (lines 102-116): stop both counters, read back and
rewrite both latched load values, pulse LOAD on both, write the baseline
flags to TCSR0 and the baseline flags plus ENALL to TCSR1, then request
the clock and return that request's result (`clkRes`). -/
def xlnx_pwm_enable (clkRes : Int) (s : PwmState) : PwmState × Int :=
  let s := wr s TCSR0 0
  let s := wr s TCSR1 0
  let (v0, s) := rd s TLR0
  let s := wr s TLR0 v0
  let (v1, s) := rd s TLR1
  let s := wr s TLR1 v1
  let s := wr s TCSR0 TCSR_LOAD
  let s := wr s TCSR1 TCSR_LOAD
  let s := wr s TCSR0 baseFlags
  let s := wr s TCSR1 (baseFlags ||| TCSR_ENALL)
  let s := clkEn s
  (s, clkRes)

/-- `xlnx_pwm_disable` (lines 118-126): write zero to both control
registers, then release the clock. -/
def xlnx_pwm_disable (s : PwmState) : PwmState :=
  let s := wr s TCSR0 0
  let s := wr s TCSR1 0
  clkDis s

/-- A fresh state: all registers zero, clock refcount zero, empty trace. -/
def initState : PwmState :=
  { regs := fun _ => 0, clkRef := 0, trace := [] }

/-- A state with one outstanding clock reference, used to exhibit the
refcount behaviour of apply-then-disable. -/
def initState1 : PwmState :=
  { regs := fun _ => 0, clkRef := 1, trace := [] }

/-- Register writes in a trace. -/
def writeCount (es : List Ev) : Nat :=
  (es.filter (fun e => match e with | Ev.write _ _ => true | _ => false)).length

/-- Writes to the two load registers, in order. -/
def loadWrites (es : List Ev) : List Ev :=
  es.filter (fun e =>
    match e with
    | Ev.write off _ => off = TLR0 || off = TLR1
    | _ => false)

/-- Writes to the two control registers whose value carries the
enable-all bit, in order. -/
def enallCtrlWrites (es : List Ev) : List Ev :=
  es.filter (fun e =>
    match e with
    | Ev.write off v => (off = TCSR0 || off = TCSR1) && v.testBit 10
    | _ => false)

/-! ### Helper lemmas about the planner and the emitted traces -/

theorem plan_period_cycles (c d pn : Nat) :
    (plan c d pn).period_cycles = cyclesOf c pn := by
  unfold plan
  dsimp only
  split
  · rfl
  split <;> rfl

theorem plan_duty_cycles (c d pn : Nat) :
    (plan c d pn).duty_cycles = cyclesOf c d := by
  unfold plan
  dsimp only
  split
  · rfl
  split <;> rfl

theorem plan_flags (c d pn : Nat) :
    ((plan c d pn).tcsr0 = 530 ∧ (plan c d pn).tcsr1 = 534) ∨
    ((plan c d pn).tcsr0 = 534 ∧ (plan c d pn).tcsr1 = 530) ∨
    ((plan c d pn).tcsr0 = 534 ∧ (plan c d pn).tcsr1 = 534) := by
  unfold plan
  dsimp only
  split
  · exact Or.inl ⟨rfl, rfl⟩
  split
  · exact Or.inr (Or.inl ⟨rfl, rfl⟩)
  · exact Or.inr (Or.inr ⟨rfl, rfl⟩)

theorem applyProgram_trace (p : TimerProgram) (s : PwmState) :
    (applyProgram p s).trace =
      s.trace ++ [Ev.clkEnable,
        Ev.write TCSR0 0, Ev.write TCSR1 0,
        Ev.write TLR0 p.period_cycles, Ev.write TLR1 p.duty_cycles,
        Ev.write TCSR0 TCSR_LOAD, Ev.write TCSR1 TCSR_LOAD,
        Ev.write TCSR0 p.tcsr0, Ev.write TCSR1 p.tcsr1,
        Ev.write TCSR1 (p.tcsr1 ||| TCSR_ENALL), Ev.clkDisable] := by
  simp [applyProgram, wr, clkEn, clkDis]

theorem applyProgram_clkRef (p : TimerProgram) (s : PwmState) :
    (applyProgram p s).clkRef = s.clkRef := by
  simp [applyProgram, wr, clkEn, clkDis]

theorem applyProgram_regs_TLR (p : TimerProgram) (s : PwmState) :
    (applyProgram p s).regs TLR0 = p.period_cycles % U32 ∧
    (applyProgram p s).regs TLR1 = p.duty_cycles % U32 := by
  constructor <;>
    simp [applyProgram, wr, clkEn, clkDis, TCSR0, TCSR1, TLR0, TLR1]

/-! ### Claim C1: which load register receives which cycle count -/

/-- C1 counterexample: at rate 100 MHz, duty 5 ms, period 20 ms, the load
writes are NOT "period cycles to 0x14 and duty cycles to 0x04" as the
claim states: the driver writes period cycles to TLR0 (0x04) and duty
cycles to TLR1 (0x14). -/
theorem C1_counterexample :
    ¬ (loadWrites (xlnx_pwm_config 100000000 5000000 20000000 initState).1.trace =
        [Ev.write TLR0 (cyclesOf 100000000 5000000),
         Ev.write TLR1 (cyclesOf 100000000 20000000)]) := by
  decide

/-- C1 amended: for every configuration request the value written to the
load register at offset 0x04 (counter A, TLR0) is the computed period
cycles, and the value written to the load register at offset 0x14
(counter B, TLR1) is the computed duty cycles — the roles are the
opposite of the claim's. -/
theorem C1_load_register_values (c d pn : Nat) (s : PwmState) :
    loadWrites (xlnx_pwm_config c d pn s).1.trace =
      loadWrites s.trace ++
        [Ev.write TLR0 (cyclesOf c pn), Ev.write TLR1 (cyclesOf c d)] := by
  have h : (xlnx_pwm_config c d pn s).1 = applyProgram (plan c d pn) s := rfl
  rw [h, applyProgram_trace, loadWrites, loadWrites, List.filter_append]
  rw [plan_period_cycles, plan_duty_cycles]
  simp [TLR0, TLR1, TCSR0, TCSR1]

/-! ### Claim C2: the always-ON boundary case -/

/-- C2 counterexample: at rate 1 Hz, period 1 ns (both positive), duty =
period rounds to zero cycles, so the program is the always-OFF one:
counter B's generate bit is NOT cleared and counter A's is NOT set. -/
theorem C2_counterexample :
    ¬ ((plan 1 1 1).tcsr1.testBit 2 = false ∧
       (plan 1 1 1).tcsr0.testBit 2 = true) := by
  decide

/-- C2 amended: whenever duty = period and the common cycle count is
positive (rate_hz * period_ns ≥ 10^9), the program clears counter B's
external-generate bit and keeps counter A's set (always ON). -/
theorem C2_always_on (c pn : Nat) (h : 0 < cyclesOf c pn) :
    (plan c pn pn).tcsr1.testBit 2 = false ∧
      (plan c pn pn).tcsr0.testBit 2 = true := by
  unfold plan
  dsimp only
  rw [if_neg h.ne', if_pos rfl]
  refine ⟨?_, ?_⟩
  · show (clearGent baseFlags).testBit 2 = false
    decide
  · show baseFlags.testBit 2 = true
    decide

/-- C2 witness: the spec's own always-ON scenario, rate 50 MHz and
duty = period = 1 ms, giving 50000 cycles on both counters. -/
theorem C2_witness :
    0 < cyclesOf 50000000 1000000 ∧
      ((plan 50000000 1000000 1000000).tcsr1.testBit 2 = false ∧
       (plan 50000000 1000000 1000000).tcsr0.testBit 2 = true) :=
  ⟨by decide, C2_always_on 50000000 1000000 (by decide)⟩

/-! ### Claim C3: normal modulation keeps both generate bits set -/

/-- C3 counterexample: at rate 1 Hz, duty 1 ns, period 2 ns
(0 < duty < period), both cycle counts truncate to zero, so the program
is the always-OFF one and counter A's generate bit is cleared. -/
theorem C3_counterexample :
    ¬ ((plan 1 1 2).tcsr0.testBit 2 = true ∧
       (plan 1 1 2).tcsr1.testBit 2 = true) := by
  decide

/-- C3 amended: whenever the computed cycle counts satisfy
0 < duty_cycles < period_cycles, both counters keep their
external-generate bit set (normal modulation). -/
theorem C3_normal_modulation (c d pn : Nat) (h1 : 0 < cyclesOf c d)
    (h2 : cyclesOf c d < cyclesOf c pn) :
    (plan c d pn).tcsr0.testBit 2 = true ∧
      (plan c d pn).tcsr1.testBit 2 = true := by
  unfold plan
  dsimp only
  rw [if_neg h1.ne', if_neg (Nat.ne_of_lt h2)]
  refine ⟨?_, ?_⟩
  · show baseFlags.testBit 2 = true
    decide
  · show baseFlags.testBit 2 = true
    decide

/-- C3 witness: the spec's scenario, rate 100 MHz, duty 5 ms, period
20 ms, giving 500000 and 2000000 cycles. -/
theorem C3_witness :
    (0 < cyclesOf 100000000 5000000 ∧
      cyclesOf 100000000 5000000 < cyclesOf 100000000 20000000) ∧
      ((plan 100000000 5000000 20000000).tcsr0.testBit 2 = true ∧
       (plan 100000000 5000000 20000000).tcsr1.testBit 2 = true) :=
  ⟨⟨by decide, by decide⟩,
    C3_normal_modulation 100000000 5000000 20000000 (by decide) (by decide)⟩

/-! ### Claim C4: the always-OFF boundary case, duty_ns = 0 -/

/-- C4: with duty_ns = 0 the program always clears counter A's
external-generate bit and keeps counter B's set (always OFF); and
period_ns = 0 gives period_cycles = 0 and duty_cycles = 0 while landing
in the same always-OFF branch. -/
theorem C4_duty_zero_always_off (c pn : Nat) (h : 0 < c) :
    (plan c 0 pn).tcsr0.testBit 2 = false ∧
      (plan c 0 pn).tcsr1.testBit 2 = true ∧
      (pn = 0 →
        (plan c 0 pn).period_cycles = 0 ∧ (plan c 0 pn).duty_cycles = 0) := by
  have hd : cyclesOf c 0 = 0 := by simp [cyclesOf]
  refine ⟨?_, ?_, ?_⟩
  · unfold plan
    dsimp only
    rw [if_pos hd]
    show (clearGent baseFlags).testBit 2 = false
    decide
  · unfold plan
    dsimp only
    rw [if_pos hd]
    show baseFlags.testBit 2 = true
    decide
  · intro hpn
    subst hpn
    rw [plan_period_cycles, plan_duty_cycles]
    exact ⟨hd, hd⟩

/-- C4 witness: rate 100 MHz, duty 0, period 1 ms (the spec's always-OFF
scenario). -/
theorem C4_witness :
    0 < 100000000 ∧
      ((plan 100000000 0 1000000).tcsr0.testBit 2 = false ∧
        (plan 100000000 0 1000000).tcsr1.testBit 2 = true ∧
        (1000000 = 0 →
          (plan 100000000 0 1000000).period_cycles = 0 ∧
            (plan 100000000 0 1000000).duty_cycles = 0)) :=
  ⟨by decide, C4_duty_zero_always_off 100000000 1000000 (by decide)⟩

/-! ### Claim C5: no input validation, registers written regardless -/

/-- C5 counterexample: configuring with duty_ns = 20 ms > period_ns =
1 ms returns 0 (success, not an InvalidInput error) and performs nine
register writes, not zero. -/
theorem C5_counterexample :
    (xlnx_pwm_config 100000000 20000000 1000000 initState).2 = 0 ∧
      writeCount (xlnx_pwm_config 100000000 20000000 1000000 initState).1.trace ≠ 0 := by
  decide

/-- C5 amended: the configure path performs no validation at all: for
duty_ns > period_ns or period_ns = 0 it still returns 0 and performs the
full sequence of nine register writes. -/
theorem C5_no_validation (c d pn : Nat) (s : PwmState) (h : pn < d ∨ pn = 0) :
    (xlnx_pwm_config c d pn s).2 = 0 ∧
      writeCount (xlnx_pwm_config c d pn s).1.trace = writeCount s.trace + 9 := by
  refine ⟨rfl, ?_⟩
  have ht : (xlnx_pwm_config c d pn s).1 = applyProgram (plan c d pn) s := rfl
  rw [ht, applyProgram_trace, writeCount, writeCount, List.filter_append,
    List.length_append]
  rfl

/-- C5 witness: the duty > period case at rate 100 MHz. -/
theorem C5_witness :
    ((1000000 : Nat) < 20000000 ∨ (1000000 : Nat) = 0) ∧
      ((xlnx_pwm_config 100000000 20000000 1000000 initState).2 = 0 ∧
        writeCount (xlnx_pwm_config 100000000 20000000 1000000 initState).1.trace =
          writeCount initState.trace + 9) :=
  ⟨Or.inl (by decide),
    C5_no_validation 100000000 20000000 1000000 initState (Or.inl (by decide))⟩

/-! ### Claim C6: cycle overflow is silently truncated, not reported -/

/-- C6 counterexample: at clock rate 2^33 Hz and period_ns = 10^9 the
computed period cycles are 2^33, beyond the 32-bit register width, yet
configure returns 0 (no CycleOverflow error) and the load register ends
up holding 0 — the value was silently truncated. -/
theorem C6_counterexample :
    U32 < cyclesOf (2 ^ 33) 1000000000 ∧
      (xlnx_pwm_config (2 ^ 33) 0 1000000000 initState).2 = 0 ∧
      (xlnx_pwm_config (2 ^ 33) 0 1000000000 initState).1.regs TLR0 ≠
        cyclesOf (2 ^ 33) 1000000000 :=
  ⟨by decide, rfl, by decide⟩

/-- C6 amended: configure never detects overflow: it always returns 0
and the load registers end up holding the computed cycle counts reduced
modulo 2^32 (the register write keeps only the low 32 bits). -/
theorem C6_silent_truncation (c d pn : Nat) (s : PwmState) :
    (xlnx_pwm_config c d pn s).2 = 0 ∧
      (xlnx_pwm_config c d pn s).1.regs TLR0 = cyclesOf c pn % U32 ∧
      (xlnx_pwm_config c d pn s).1.regs TLR1 = cyclesOf c d % U32 := by
  have h := applyProgram_regs_TLR (plan c d pn) s
  rw [plan_period_cycles, plan_duty_cycles] at h
  exact ⟨rfl, h.1, h.2⟩

/-! ### Claim C7: the cycle conversion function -/

/-- C7 counterexample: the 64-bit multiply wraps, so for rate_hz = 2^62
and ns = 4 the conversion returns 0 instead of
floor(2^62 * 4 / 10^9): the function is not floor(rate * ns / 10^9) on
all finite non-negative inputs. -/
theorem C7_counterexample :
    cyclesOf (2 ^ 62) 4 ≠ 2 ^ 62 * 4 / 1000000000 := by
  decide

/-- C7 amended: whenever the product rate_hz * ns fits in 64 bits (which
covers all realistic inputs), the conversion is exactly the truncating
floor(rate_hz * ns / 10^9): it never rounds up. -/
theorem C7_cycles_exact (c ns : Nat) (h : c * ns < U64) :
    cyclesOf c ns = c * ns / 1000000000 ∧
      cyclesOf c ns * 1000000000 ≤ c * ns ∧
      c * ns < (cyclesOf c ns + 1) * 1000000000 := by
  have hm : c * ns % U64 = c * ns := Nat.mod_eq_of_lt h
  unfold cyclesOf
  rw [hm]
  have h1 := Nat.div_add_mod (c * ns) 1000000000
  have h2 : c * ns % 1000000000 < 1000000000 := Nat.mod_lt _ (by norm_num)
  refine ⟨rfl, ?_, ?_⟩ <;> omega

/-- C7 witness: rate 100 MHz, ns = 20 ms. -/
theorem C7_witness :
    100000000 * 20000000 < U64 ∧
      (cyclesOf 100000000 20000000 = 100000000 * 20000000 / 1000000000 ∧
        cyclesOf 100000000 20000000 * 1000000000 ≤ 100000000 * 20000000 ∧
        100000000 * 20000000 < (cyclesOf 100000000 20000000 + 1) * 1000000000) :=
  ⟨by decide, C7_cycles_exact 100000000 20000000 (by decide)⟩

/-! ### Claim C8: the register write ordering of apply -/

theorem enallCtrlWrites_apply (q : TimerProgram)
    (h0 : q.tcsr0.testBit 10 = false) (h1 : q.tcsr1.testBit 10 = false) :
    enallCtrlWrites (applyProgram q initState).trace =
      [Ev.write TCSR1 (q.tcsr1 ||| TCSR_ENALL)] := by
  rw [applyProgram_trace]
  have e32 : Nat.testBit 32 10 = false := by decide
  have e1024 : Nat.testBit 1024 10 = true := by decide
  simp [enallCtrlWrites, initState, TCSR0, TCSR1, TLR0, TLR1, TCSR_LOAD,
    TCSR_ENALL, Nat.testBit_lor, h0, h1, e32, e1024]

/-- C8: `applyProgram` emits, in exactly this order: clock enable, zero
to both control registers, the load values to both load registers, the
LOAD pulse on both counters, the two flag words, the flag word of
counter B again with enable-all set, and clock release.  The planned
flag words carry neither the enable bit (bit 7) nor enable-all
(bit 10), and exactly one write in a run carries the enable-all bit —
the final control write at TCSR1 (counter B). -/
theorem C8_apply_sequence (p : TimerProgram) (c d pn : Nat) (s : PwmState) :
    (applyProgram p s).trace =
      s.trace ++ [Ev.clkEnable,
        Ev.write TCSR0 0, Ev.write TCSR1 0,
        Ev.write TLR0 p.period_cycles, Ev.write TLR1 p.duty_cycles,
        Ev.write TCSR0 TCSR_LOAD, Ev.write TCSR1 TCSR_LOAD,
        Ev.write TCSR0 p.tcsr0, Ev.write TCSR1 p.tcsr1,
        Ev.write TCSR1 (p.tcsr1 ||| TCSR_ENALL), Ev.clkDisable] ∧
      (plan c d pn).tcsr0.testBit 7 = false ∧
      (plan c d pn).tcsr0.testBit 10 = false ∧
      (plan c d pn).tcsr1.testBit 7 = false ∧
      (plan c d pn).tcsr1.testBit 10 = false ∧
      enallCtrlWrites (applyProgram (plan c d pn) initState).trace =
        [Ev.write TCSR1 ((plan c d pn).tcsr1 ||| TCSR_ENALL)] := by
  have hbits : (plan c d pn).tcsr0.testBit 7 = false ∧
      (plan c d pn).tcsr0.testBit 10 = false ∧
      (plan c d pn).tcsr1.testBit 7 = false ∧
      (plan c d pn).tcsr1.testBit 10 = false := by
    obtain ⟨h0, h1⟩ | ⟨h0, h1⟩ | ⟨h0, h1⟩ := plan_flags c d pn <;>
      rw [h0, h1] <;> exact ⟨by decide, by decide, by decide, by decide⟩
  exact ⟨applyProgram_trace p s, hbits.1, hbits.2.1, hbits.2.2.1, hbits.2.2.2,
    enallCtrlWrites_apply _ hbits.2.1 hbits.2.2.2⟩

/-! ### Claim C9: apply followed by disable -/

/-- C9 counterexample: starting from one outstanding clock reference,
configure (apply) followed by disable leaves both control registers at
zero but the clock reference count at 0, NOT at its pre-apply value 1:
apply is internally balanced (enable then release), and disable releases
one further reference that apply did not acquire. -/
theorem C9_counterexample :
    (xlnx_pwm_disable (xlnx_pwm_config 100000000 500000 1000000 initState1).1).regs
        TCSR0 = 0 ∧
      (xlnx_pwm_disable (xlnx_pwm_config 100000000 500000 1000000 initState1).1).regs
        TCSR1 = 0 ∧
      (xlnx_pwm_disable (xlnx_pwm_config 100000000 500000 1000000 initState1).1).clkRef ≠
        initState1.clkRef :=
  ⟨by decide, by decide, by decide⟩

/-- C9 amended: apply followed by disable leaves both control registers
at zero; the apply call itself is clock-neutral (it acquires and releases
one reference internally), and the disable call releases one additional
reference, leaving the reference count one below its pre-apply value. -/
theorem C9_apply_then_disable (c d pn : Nat) (s : PwmState) :
    (xlnx_pwm_disable (xlnx_pwm_config c d pn s).1).regs TCSR0 = 0 ∧
      (xlnx_pwm_disable (xlnx_pwm_config c d pn s).1).regs TCSR1 = 0 ∧
      (xlnx_pwm_config c d pn s).1.clkRef = s.clkRef ∧
      (xlnx_pwm_disable (xlnx_pwm_config c d pn s).1).clkRef = s.clkRef - 1 := by
  have hc : (xlnx_pwm_config c d pn s).1.clkRef = s.clkRef :=
    applyProgram_clkRef (plan c d pn) s
  refine ⟨?_, ?_, hc, ?_⟩
  · simp [xlnx_pwm_disable, wr, clkDis, TCSR0, TCSR1, U32]
  · simp [xlnx_pwm_disable, wr, clkDis, TCSR0, TCSR1, U32]
  · simp [xlnx_pwm_disable, wr, clkDis, hc]

/-! ### Claim C10: enable writes all registers before the clock request -/

/-- C10: `xlnx_pwm_enable` performs all of its register accesses —
halting both control registers, reading back and rewriting both latched
load values, pulsing LOAD on both counters, writing the baseline flags
to counter A and the baseline flags with enable-all to counter B —
strictly before the clock-enable request (the final event of its trace),
and returns exactly that request's result. -/
theorem C10_enable_order (r : Int) (s : PwmState) :
    (xlnx_pwm_enable r s).1.trace =
      s.trace ++ [Ev.write TCSR0 0, Ev.write TCSR1 0,
        Ev.read TLR0, Ev.write TLR0 (s.regs TLR0),
        Ev.read TLR1, Ev.write TLR1 (s.regs TLR1),
        Ev.write TCSR0 TCSR_LOAD, Ev.write TCSR1 TCSR_LOAD,
        Ev.write TCSR0 baseFlags,
        Ev.write TCSR1 (baseFlags ||| TCSR_ENALL),
        Ev.clkEnable] ∧
      (xlnx_pwm_enable r s).2 = r := by
  constructor
  · simp [xlnx_pwm_enable, wr, rd, clkEn, TCSR0, TCSR1, TLR0, TLR1]
  · rfl

end XlnxPwm
